import Mathlib

/-!
Verification of the weather-radar composite point extractor
(`check_coordinates.py`) against its design specification.

Modelling conventions (shallow embedding):
* All numeric attribute values and raw cells are modelled as `ℚ`.  HDF5
  cells and sentinels are sized integers or floats; sentinel comparison in
  the source is exact equality, which `ℚ` equality captures with no
  tolerance.
* The pyproj transform chain (an external collaborator in the spec) is an
  abstract parameter `T : ℚ → ℚ → ℚ × ℚ`; `T lon lat` is the planar
  `(x, y)` image of the geographic point, matching the `always_xy=True`
  argument order of the source.  Both the target point and the upper-left
  corner go through the same `T`.
* HDF5 attribute lookups raise `KeyError` when an attribute is absent, so
  every attribute is read as an `Option`; the extractor is `Option`-valued
  and `none` models the uncaught exception that aborts the run.
* `enddate`/`endtime` are read and parsed by the source but the parsed
  datetime is discarded (the variable is never used afterwards), so the
  model binds and discards them; only their presence matters.
* Python's `round` rounds half to even; `pyround` reproduces that on `ℚ`.
* Python's `f"{x:.2f} dBZ"` formatting is modelled by `fmtDbz`, decimal
  rounding at two places, half to even, at rational precision.
-/

namespace CheckCoordinates

/-- Python's built-in `round` followed by `int(...)` (line 160-161 of the
source): round to the nearest integer, ties to the even integer. -/
def pyround (q : ℚ) : ℤ :=
  let f := ⌊q⌋
  if q - f < 1/2 then f
  else if 1/2 < q - f then f + 1
  else if f % 2 = 0 then f else f + 1

/-- The `"Not in data"` category string (line 169 of the source). -/
def notInDataStr : String := "Not in data"

/-- The nodata category string (line 175 of the source). -/
def noDataStr : String := "No Data (pixel is outside the scan area)"

/-- The undetect category string (line 177 of the source). -/
def undetectStr : String := "Undetected (clear air, no return signal)"

/-- The source's `f"{real_dbz:.2f} dBZ"` (line 181): two decimal places,
ties to even, modelled at rational precision. -/
def fmtDbz (q : ℚ) : String :=
  let c : ℤ := pyround (q * 100)
  let sign := if c < 0 then "-" else ""
  let n := c.natAbs
  let frac := n % 100
  sign ++ toString (n / 100) ++ "." ++
    (if frac < 10 then "0" else "") ++ toString frac ++ " dBZ"

/-- One HDF5 composite file as the source reads it: every attribute the
source fetches from `/dataset1/what`, `/how`, `/where`, plus the 2-D data
array at `/dataset1/data1/data`.  A `none` field models an absent
attribute (fetching it raises `KeyError`). -/
structure H5File where
  enddate : Option String
  endtime : Option String
  gain : Option ℚ
  offset : Option ℚ
  nodata : Option ℚ
  undetect : Option ℚ
  endepochs : Option ℤ
  projdef : Option String
  UL_lon : Option ℚ
  UL_lat : Option ℚ
  xscale : Option ℚ
  yscale : Option ℚ
  data : Option (List (List ℚ))
deriving DecidableEq

/-- The 4-tuple `(end_epoch, realvalue, real_dbz, rawfilename)` returned at
line 186 of the source. -/
structure Reading where
  end_epoch : ℤ
  realvalue : String
  real_dbz : ℚ
  rawfilename : String
deriving DecidableEq

/-- Lines 174-181 of the source: classify a raw cell against the sentinels
and convert, starting from `realvalue = "Not in data"`, `real_dbz = 0.0`
overwritten in every branch reached inside the bounds guard. -/
def decodeCell (raw_value gain offset nodata_val undetect_val : ℚ) :
    String × ℚ :=
  if raw_value = nodata_val then (noDataStr, 0)
  else if raw_value = undetect_val then (undetectStr, 0)
  else
    let real_dbz := raw_value * gain + offset
    (fmtDbz real_dbz, real_dbz)

/-- Lines 148-161 of the source: transform target and upper-left corner
with the same transformer, form the two quotients, round.  Returns
`(row_idx, col_idx)`. -/
def resolvePixel (T : ℚ → ℚ → ℚ × ℚ)
    (ul_lon ul_lat x_scale y_scale lat lon : ℚ) : ℤ × ℤ :=
  let xy_target := T lon lat
  let xy_ul := T ul_lon ul_lat
  let col := (xy_target.1 - xy_ul.1) / x_scale
  let row := (xy_ul.2 - xy_target.2) / y_scale
  (pyround row, pyround col)

/-- Lines 136-186 of the source after all attributes have been read:
shape from the dataset, pixel resolution, bounds guard, cell fetch and
decode; out of bounds keeps the initial `("Not in data", 0.0)` pair.
The cell fetch is `Option`-valued so that an out-of-range array access
would surface as `none` rather than a default value. -/
def extractCore (T : ℚ → ℚ → ℚ × ℚ) (gain offset nodata_val undetect_val : ℚ)
    (end_epoch : ℤ) (ul_lon ul_lat x_scale y_scale : ℚ)
    (dset : List (List ℚ)) (rawfilename : String) (lat lon : ℚ) :
    Option Reading :=
  let ysize := dset.length
  let xsize := (dset.headD []).length
  let rc := resolvePixel T ul_lon ul_lat x_scale y_scale lat lon
  if 0 ≤ rc.1 ∧ rc.1 < (ysize : ℤ) ∧ 0 ≤ rc.2 ∧ rc.2 < (xsize : ℤ) then
    (dset[rc.1.toNat]?.bind fun rowList => rowList[rc.2.toNat]?).map
      fun raw_value =>
        let v := decodeCell raw_value gain offset nodata_val undetect_val
        ⟨end_epoch, v.1, v.2, rawfilename⟩
  else
    some ⟨end_epoch, notInDataStr, 0, rawfilename⟩

/-- `get_radar_value_at_coord` (lines 102-186 of the source): read every
attribute the source fetches, in source order, then run the core.  The
parsed `enddate`/`endtime` strings are bound and discarded exactly as the
source discards its `dt_object`. -/
def get_radar_value_at_coord (T : ℚ → ℚ → ℚ × ℚ) (f : H5File)
    (rawfilename : String) (lat lon : ℚ) : Option Reading := do
  let _date_str ← f.enddate
  let _time_str ← f.endtime
  let gain ← f.gain
  let offset ← f.offset
  let nodata_val ← f.nodata
  let undetect_val ← f.undetect
  let end_epoch ← f.endepochs
  let _projdef ← f.projdef
  let ul_lon ← f.UL_lon
  let ul_lat ← f.UL_lat
  let x_scale ← f.xscale
  let y_scale ← f.yscale
  let dset ← f.data
  extractCore T gain offset nodata_val undetect_val end_epoch
    ul_lon ul_lat x_scale y_scale dset rawfilename lat lon

/-- Lines 194-195 of the source: keep the directory entries ending in
`.h5`.  Python's `filename.endswith('.h5')` is modelled as a suffix test
on the character list of the filename. -/
def listH5Files (files : List (String × H5File)) : List (String × H5File) :=
  files.filter fun nf => ".h5".data.isSuffixOf nf.1.data

/-- Lines 193-197 of the source: run the extractor over every `.h5` file
in directory order; the first uncaught exception aborts the run. -/
def extractAll (T : ℚ → ℚ → ℚ × ℚ) (files : List (String × H5File))
    (lat lon : ℚ) : Option (List Reading) :=
  (listH5Files files).mapM fun nf =>
    get_radar_value_at_coord T nf.2 nf.1 lat lon

/-- Line 200 of the source: `parseddata.sort(key=lambda x: x[0])`, a
stable ascending sort on the epoch field. -/
def sortByTime (rs : List Reading) : List Reading :=
  rs.mergeSort fun a b => decide (a.end_epoch ≤ b.end_epoch)

/-- Lines 202-203 of the source with the threshold as the configurable
parameter of the spec's batch-pipeline contract: keep the readings whose
numeric field is at least the threshold.  The source instantiates the
threshold at `40`. -/
def reportWithThreshold (threshold : ℚ) (rs : List Reading) : List Reading :=
  (sortByTime rs).filter fun r => decide (threshold ≤ r.real_dbz)

/-- Lines 193-205 of the source: extract, sort, filter. -/
def batchWithThreshold (T : ℚ → ℚ → ℚ × ℚ) (files : List (String × H5File))
    (lat lon threshold : ℚ) : Option (List Reading) :=
  (extractAll T files lat lon).map (reportWithThreshold threshold)

/-- The target latitude fixed at line 22 of the source. -/
def TARGET_LAT : ℚ := 43.492543

/-- The target longitude fixed at line 23 of the source. -/
def TARGET_LON : ℚ := 25.500355

/-- `__main__` (lines 190-205): the report for the fixed target point and
the fixed threshold `40`. -/
def mainReport (T : ℚ → ℚ → ℚ × ℚ) (files : List (String × H5File)) :
    Option (List Reading) :=
  batchWithThreshold T files TARGET_LAT TARGET_LON 40

/-- Every attribute the source fetches is present (the file can be
processed without a `KeyError`). -/
def H5File.complete (f : H5File) : Prop :=
  f.enddate.isSome ∧ f.endtime.isSome ∧ f.gain.isSome ∧ f.offset.isSome ∧
    f.nodata.isSome ∧ f.undetect.isSome ∧ f.endepochs.isSome ∧
    f.projdef.isSome ∧ f.UL_lon.isSome ∧ f.UL_lat.isSome ∧
    f.xscale.isSome ∧ f.yscale.isSome ∧ f.data.isSome

/-- The attributes the spec's external-interface section lists as
required: `/where` → projdef, UL_lon, UL_lat, xscale, yscale;
`/<dataset>/what` → gain, offset, nodata, undetect; `/how` → endepochs;
plus the 2-D dataset.  (No `enddate`/`endtime`.) -/
def H5File.specRequired (f : H5File) : Prop :=
  f.projdef.isSome ∧ f.UL_lon.isSome ∧ f.UL_lat.isSome ∧
    f.xscale.isSome ∧ f.yscale.isSome ∧ f.gain.isSome ∧ f.offset.isSome ∧
    f.nodata.isSome ∧ f.undetect.isSome ∧ f.endepochs.isSome ∧
    f.data.isSome

/-- The data model's shape invariant: every row of the 2-D array has the
length the source reads off as `xsize` (numpy arrays are rectangular). -/
def rectangular (d : List (List ℚ)) : Prop :=
  ∀ r ∈ d, r.length = (d.headD []).length

/-- A reading is in the Measured category exactly when its value string is
none of the three fixed non-measurement strings of the source. -/
def Reading.measured (r : Reading) : Prop :=
  r.realvalue ≠ notInDataStr ∧ r.realvalue ≠ noDataStr ∧
    r.realvalue ≠ undetectStr

/-- A constant planar transform, used to instantiate theorems at concrete
inputs. -/
def T0 : ℚ → ℚ → ℚ × ℚ := fun _ _ => (0, 0)

/-! ### Helper lemmas -/

lemma pyround_zero : pyround 0 = 0 := by
  norm_num [pyround]

lemma pyround_nearest (q : ℚ) : |q - (pyround q : ℚ)| ≤ 1/2 := by
  have h0 : (⌊q⌋ : ℚ) ≤ q := Int.floor_le q
  have h1 : q < ⌊q⌋ + 1 := Int.lt_floor_add_one q
  simp only [pyround]
  split_ifs with ha hb hc
  · rw [abs_le]; constructor <;> linarith
  · rw [abs_le]; push_cast; constructor <;> linarith
  · rw [abs_le]
    constructor <;> linarith [le_of_not_lt ha, le_of_not_lt hb]
  · rw [abs_le]; push_cast
    constructor <;> linarith [le_of_not_lt ha, le_of_not_lt hb]

lemma fmtDbz_data_getLast (q : ℚ) : (fmtDbz q).data.getLast? = some 'Z' := by
  simp only [fmtDbz, String.data_append, List.getLast?_append]
  rfl

lemma fmtDbz_ne_notInDataStr (q : ℚ) : fmtDbz q ≠ notInDataStr := by
  intro h
  have := fmtDbz_data_getLast q
  rw [h] at this
  simp [notInDataStr] at this

lemma fmtDbz_ne_noDataStr (q : ℚ) : fmtDbz q ≠ noDataStr := by
  intro h
  have := fmtDbz_data_getLast q
  rw [h] at this
  simp [noDataStr] at this

lemma fmtDbz_ne_undetectStr (q : ℚ) : fmtDbz q ≠ undetectStr := by
  intro h
  have := fmtDbz_data_getLast q
  rw [h] at this
  simp [undetectStr] at this

lemma get_mk_eq (T : ℚ → ℚ → ℚ × ℚ) (name : String) (lat lon : ℚ)
    (ds ts : String) (g o nd ud : ℚ) (e : ℤ) (pd : String)
    (ulon ulat xs ys : ℚ) (d : List (List ℚ)) :
    get_radar_value_at_coord T
      ⟨some ds, some ts, some g, some o, some nd, some ud, some e, some pd,
       some ulon, some ulat, some xs, some ys, some d⟩ name lat lon =
    extractCore T g o nd ud e ulon ulat xs ys d name lat lon := rfl

lemma get_eq_some_inv {T : ℚ → ℚ → ℚ × ℚ} {f : H5File} {name : String}
    {lat lon : ℚ} {r : Reading}
    (h : get_radar_value_at_coord T f name lat lon = some r) :
    ∃ ds ts g o nd ud e pd ulon ulat xs ys d,
      f = ⟨some ds, some ts, some g, some o, some nd, some ud, some e,
           some pd, some ulon, some ulat, some xs, some ys, some d⟩ := by
  obtain ⟨ed, et, g, o, nd, ud, ee, pd, ulon, ulat, xs, ys, d⟩ := f
  rcases ed with _ | ds
  · exact Option.noConfusion h
  rcases et with _ | ts
  · exact Option.noConfusion h
  rcases g with _ | g
  · exact Option.noConfusion h
  rcases o with _ | o
  · exact Option.noConfusion h
  rcases nd with _ | nd
  · exact Option.noConfusion h
  rcases ud with _ | ud
  · exact Option.noConfusion h
  rcases ee with _ | ee
  · exact Option.noConfusion h
  rcases pd with _ | pd
  · exact Option.noConfusion h
  rcases ulon with _ | ulon
  · exact Option.noConfusion h
  rcases ulat with _ | ulat
  · exact Option.noConfusion h
  rcases xs with _ | xs
  · exact Option.noConfusion h
  rcases ys with _ | ys
  · exact Option.noConfusion h
  rcases d with _ | d
  · exact Option.noConfusion h
  exact ⟨ds, ts, g, o, nd, ud, ee, pd, ulon, ulat, xs, ys, _, rfl⟩

lemma extractCore_isSome {T : ℚ → ℚ → ℚ × ℚ} {g o nd ud : ℚ} {e : ℤ}
    {ulon ulat xs ys : ℚ} {d : List (List ℚ)} {name : String} {lat lon : ℚ}
    (hrect : rectangular d) :
    (extractCore T g o nd ud e ulon ulat xs ys d name lat lon).isSome := by
  simp only [extractCore]
  split_ifs with h
  · obtain ⟨h1, h2, h3, h4⟩ := h
    have hrow : (resolvePixel T ulon ulat xs ys lat lon).1.toNat < d.length := by
      omega
    have hlen := hrect _ (List.getElem_mem hrow)
    have hcol : (resolvePixel T ulon ulat xs ys lat lon).2.toNat <
        (d[(resolvePixel T ulon ulat xs ys lat lon).1.toNat]).length := by
      rw [hlen]; omega
    rw [List.getElem?_eq_getElem hrow]
    simp [List.getElem?_eq_getElem hcol]
  · simp

lemma extractCore_out {T : ℚ → ℚ → ℚ × ℚ} {g o nd ud : ℚ} {e : ℤ}
    {ulon ulat xs ys : ℚ} {d : List (List ℚ)} {name : String} {lat lon : ℚ}
    (h : ¬ (0 ≤ (resolvePixel T ulon ulat xs ys lat lon).1 ∧
        (resolvePixel T ulon ulat xs ys lat lon).1 < (d.length : ℤ) ∧
        0 ≤ (resolvePixel T ulon ulat xs ys lat lon).2 ∧
        (resolvePixel T ulon ulat xs ys lat lon).2 <
          ((d.headD []).length : ℤ))) :
    extractCore T g o nd ud e ulon ulat xs ys d name lat lon =
      some ⟨e, notInDataStr, 0, name⟩ := by
  simp only [extractCore]
  rw [if_neg h]

lemma extractCore_some_epoch_name {T : ℚ → ℚ → ℚ × ℚ} {g o nd ud : ℚ}
    {e : ℤ} {ulon ulat xs ys : ℚ} {d : List (List ℚ)} {name : String}
    {lat lon : ℚ} {r : Reading}
    (h : extractCore T g o nd ud e ulon ulat xs ys d name lat lon = some r) :
    r.end_epoch = e ∧ r.rawfilename = name := by
  simp only [extractCore] at h
  split_ifs at h with hb
  · rw [Option.map_eq_some'] at h
    obtain ⟨raw, _, rfl⟩ := h
    exact ⟨rfl, rfl⟩
  · cases h
    exact ⟨rfl, rfl⟩

lemma extractCore_some_measured_or_zero {T : ℚ → ℚ → ℚ × ℚ}
    {g o nd ud : ℚ} {e : ℤ} {ulon ulat xs ys : ℚ} {d : List (List ℚ)}
    {name : String} {lat lon : ℚ} {r : Reading}
    (h : extractCore T g o nd ud e ulon ulat xs ys d name lat lon = some r) :
    r.measured ∨ r.real_dbz = 0 := by
  simp only [extractCore] at h
  split_ifs at h with hb
  · rw [Option.map_eq_some'] at h
    obtain ⟨raw, _, rfl⟩ := h
    by_cases h1 : raw = nd
    · right; simp [decodeCell, h1]
    · by_cases h2 : raw = ud
      · right
        simp only [decodeCell, h1, h2]
        split_ifs <;> rfl
      · left
        simp only [Reading.measured, decodeCell, if_neg h1, if_neg h2]
        exact ⟨fmtDbz_ne_notInDataStr _, fmtDbz_ne_noDataStr _,
          fmtDbz_ne_undetectStr _⟩
  · cases h
    right; rfl

lemma get_some_measured_or_zero {T : ℚ → ℚ → ℚ × ℚ} {f : H5File}
    {name : String} {lat lon : ℚ} {r : Reading}
    (h : get_radar_value_at_coord T f name lat lon = some r) :
    r.measured ∨ r.real_dbz = 0 := by
  obtain ⟨ds, ts, g, o, nd, ud, e, pd, ulon, ulat, xs, ys, d, rfl⟩ :=
    get_eq_some_inv h
  rw [get_mk_eq] at h
  exact extractCore_some_measured_or_zero h

lemma resolvePixel_eq_zero {T : ℚ → ℚ → ℚ × ℚ} {ul_lon ul_lat xs ys lat lon : ℚ}
    (h : T lon lat = T ul_lon ul_lat) :
    resolvePixel T ul_lon ul_lat xs ys lat lon = (0, 0) := by
  simp [resolvePixel, h, pyround_zero]

lemma get_isSome_of_complete {T : ℚ → ℚ → ℚ × ℚ} {f : H5File} {name : String}
    {lat lon : ℚ} (hc : f.complete) (hrect : rectangular (f.data.getD [])) :
    (get_radar_value_at_coord T f name lat lon).isSome := by
  obtain ⟨ed, et, g, o, nd, ud, ee, pd, ulon, ulat, xs, ys, d⟩ := f
  obtain ⟨h1, h2, h3, h4, h5, h6, h7, h8, h9, h10, h11, h12, h13⟩ := hc
  rcases ed with _ | ds
  · simp at h1
  rcases et with _ | ts
  · simp at h2
  rcases g with _ | g
  · simp at h3
  rcases o with _ | o
  · simp at h4
  rcases nd with _ | nd
  · simp at h5
  rcases ud with _ | ud
  · simp at h6
  rcases ee with _ | ee
  · simp at h7
  rcases pd with _ | pd
  · simp at h8
  rcases ulon with _ | ulon
  · simp at h9
  rcases ulat with _ | ulat
  · simp at h10
  rcases xs with _ | xs
  · simp at h11
  rcases ys with _ | ys
  · simp at h12
  rcases d with _ | d
  · simp at h13
  rw [get_mk_eq]
  exact extractCore_isSome (by simpa using hrect)

lemma mapM_option_mem_inv {α β : Type} (F : α → Option β) :
    ∀ (xs : List α) (l : List β), xs.mapM F = some l →
      ∀ b ∈ l, ∃ a ∈ xs, F a = some b := by
  intro xs
  induction xs with
  | nil =>
    intro l h b hb
    rw [← List.mapM'_eq_mapM] at h
    simp only [List.mapM'] at h
    cases h
    simp at hb
  | cons a as ih =>
    intro l h b hb
    rw [← List.mapM'_eq_mapM] at h
    simp only [List.mapM'] at h
    rcases Option.bind_eq_some.mp h with ⟨b0, hb0, h'⟩
    rcases Option.bind_eq_some.mp h' with ⟨l', hl', hpure⟩
    rw [List.mapM'_eq_mapM] at hl'
    cases hpure
    rcases List.mem_cons.mp hb with rfl | hbl
    · exact ⟨a, List.mem_cons_self a as, hb0⟩
    · obtain ⟨a', ha', hFa'⟩ := ih l' hl' b hbl
      exact ⟨a', List.mem_cons_of_mem a ha', hFa'⟩

lemma mapM_option_count {β : Type} [DecidableEq β] {α : Type}
    (F : α → Option β) :
    ∀ (xs : List α) (l : List β), xs.mapM F = some l →
      ∀ b : β, l.count b = (xs.filter fun a => F a = some b).length := by
  intro xs
  induction xs with
  | nil =>
    intro l h b
    rw [← List.mapM'_eq_mapM] at h
    simp only [List.mapM'] at h
    cases h
    simp
  | cons a as ih =>
    intro l h b
    rw [← List.mapM'_eq_mapM] at h
    simp only [List.mapM'] at h
    rcases Option.bind_eq_some.mp h with ⟨b0, hb0, h'⟩
    rcases Option.bind_eq_some.mp h' with ⟨l', hl', hpure⟩
    rw [List.mapM'_eq_mapM] at hl'
    cases hpure
    rw [List.filter_cons]
    by_cases hab : F a = some b
    · have hbb : b0 = b := by rw [hb0] at hab; exact (Option.some_inj.mp hab)
      subst hbb
      rw [List.count_cons_self, ih l' hl' b0, if_pos (by simpa using hab)]
      simp
    · have hne : b0 ≠ b := by
        intro hbb
        exact hab (hbb ▸ hb0)
      rw [if_neg (by simpa using hab)]
      rw [List.count_cons_of_ne (by simpa using Ne.symm hne)]
      exact ih l' hl' b

lemma sortByTime_sorted (rs : List Reading) :
    (sortByTime rs).Pairwise fun a b => a.end_epoch ≤ b.end_epoch := by
  have h := @List.sorted_mergeSort Reading
    (fun a b : Reading => decide (a.end_epoch ≤ b.end_epoch))
    (fun a b c hab hbc => by
      simp only [decide_eq_true_eq] at *
      exact le_trans hab hbc)
    (fun a b => by
      simp only [Bool.or_eq_true, decide_eq_true_eq]
      exact Int.le_total _ _)
    rs
  exact h.imp fun hd => by simpa using hd

lemma sortByTime_perm (rs : List Reading) : List.Perm (sortByTime rs) rs :=
  List.mergeSort_perm rs _

lemma low_value_not_in_report {r : Reading} {t : ℚ} (h : r.real_dbz < t)
    (rs : List Reading) : r ∉ reportWithThreshold t rs := by
  intro hm
  have hp := (List.mem_filter.mp hm).2
  rw [decide_eq_true_eq] at hp
  exact absurd hp (not_le.mpr h)

/-! ### Concrete instances used to discharge hypotheses of the proved
theorems -/

/-- A complete 1×1 file whose only cell decodes as Measured 5.00 dBZ. -/
def wf : H5File :=
  ⟨some "20240512", some "221009", some 1, some 0, some 255, some 0,
   some 100, some "+proj=aeqd", some 25, some 43, some 500, some 500,
   some [[5]]⟩

/-- `wf` with different textual end-date/end-time attributes. -/
def wf2 : H5File :=
  ⟨some "19990101", some "000000", some 1, some 0, some 255, some 0,
   some 100, some "+proj=aeqd", some 25, some 43, some 500, some 500,
   some [[5]]⟩

/-- A complete 1×1 file whose only cell equals the nodata sentinel. -/
def cexNd : H5File :=
  ⟨some "20240512", some "221009", some 1, some 0, some 255, some 0,
   some 100, some "+proj=aeqd", some 25, some 43, some 500, some 500,
   some [[255]]⟩

/-- A complete 1×1 file whose only cell decodes as Measured 40.00 dBZ
(gain 0.5, offset −32, raw cell 144). -/
def mf : H5File :=
  ⟨some "20240512", some "221009", some (1/2), some (-32), some 255,
   some 0, some 100, some "+proj=aeqd", some 25, some 43, some 500,
   some 500, some [[144]]⟩

/-- A complete file with an empty data array: every pixel index is out of
its bounds. -/
def wfOut : H5File :=
  ⟨some "20240512", some "221009", some 1, some 0, some 255, some 0,
   some 100, some "+proj=aeqd", some 25, some 43, some 500, some 500,
   some []⟩

/-- A file carrying every attribute the spec lists as required, but no
`enddate`. -/
def cexNoEnddate : H5File :=
  ⟨none, some "221009", some 1, some 0, some 255, some 0, some 100,
   some "+proj=aeqd", some 25, some 43, some 500, some 500, some [[1]]⟩

lemma extractCore_T0_cell (g o nd ud : ℚ) (e : ℤ) (ulon ulat xs ys : ℚ)
    (cell : ℚ) (name : String) (lat lon : ℚ) :
    extractCore T0 g o nd ud e ulon ulat xs ys [[cell]] name lat lon =
      some ⟨e, (decodeCell cell g o nd ud).1,
        (decodeCell cell g o nd ud).2, name⟩ := by
  have h := @resolvePixel_eq_zero T0 ulon ulat xs ys lat lon rfl
  simp only [extractCore, h]
  norm_num

lemma extractCore_T0_empty (g o nd ud : ℚ) (e : ℤ) (ulon ulat xs ys : ℚ)
    (name : String) (lat lon : ℚ) :
    extractCore T0 g o nd ud e ulon ulat xs ys [] name lat lon =
      some ⟨e, notInDataStr, 0, name⟩ := by
  refine extractCore_out ?_
  rw [@resolvePixel_eq_zero T0 ulon ulat xs ys lat lon rfl]
  norm_num

lemma wf_get (lat lon : ℚ) :
    get_radar_value_at_coord T0 wf "a.h5" lat lon =
      some ⟨100, fmtDbz 5, 5, "a.h5"⟩ := by
  simp only [wf]
  rw [get_mk_eq, extractCore_T0_cell]
  norm_num [decodeCell]

lemma wf2_get (lat lon : ℚ) :
    get_radar_value_at_coord T0 wf2 "a.h5" lat lon =
      some ⟨100, fmtDbz 5, 5, "a.h5"⟩ := by
  simp only [wf2]
  rw [get_mk_eq, extractCore_T0_cell]
  norm_num [decodeCell]

lemma cexNd_get (lat lon : ℚ) :
    get_radar_value_at_coord T0 cexNd "a.h5" lat lon =
      some ⟨100, noDataStr, 0, "a.h5"⟩ := by
  simp only [cexNd]
  rw [get_mk_eq, extractCore_T0_cell]
  norm_num [decodeCell]

lemma mf_get (lat lon : ℚ) :
    get_radar_value_at_coord T0 mf "a.h5" lat lon =
      some ⟨100, fmtDbz 40, 40, "a.h5"⟩ := by
  simp only [mf]
  rw [get_mk_eq, extractCore_T0_cell]
  norm_num [decodeCell]

lemma extractAll_single (f : H5File) (r : Reading) (lat lon : ℚ)
    (h : get_radar_value_at_coord T0 f "a.h5" lat lon = some r) :
    extractAll T0 [("a.h5", f)] lat lon = some [r] := by
  have hfil : listH5Files [("a.h5", f)] = [("a.h5", f)] := rfl
  simp only [extractAll, hfil]
  rw [← List.mapM'_eq_mapM]
  simp [List.mapM', h]

/-! ### The claims -/

/-- C1: the value decoder classifies in this exact priority: a raw cell
equal to the nodata sentinel is NoData (value 0); otherwise a cell equal
to the undetect sentinel is Undetect (value 0); otherwise the cell is
Measured with decoded value rawCell * gain + offset.  Sentinel comparison
is exact equality of the cell's numeric value, with no tolerance. -/
theorem C1_decode_priority (raw gain offset nodata undetect : ℚ) :
    (raw = nodata →
      decodeCell raw gain offset nodata undetect = (noDataStr, 0)) ∧
    (raw ≠ nodata → raw = undetect →
      decodeCell raw gain offset nodata undetect = (undetectStr, 0)) ∧
    (raw ≠ nodata → raw ≠ undetect →
      decodeCell raw gain offset nodata undetect =
        (fmtDbz (raw * gain + offset), raw * gain + offset)) := by
  refine ⟨fun h1 => ?_, fun h1 h2 => ?_, fun h1 h2 => ?_⟩
  · simp [decodeCell, h1]
  · simp only [decodeCell, if_neg h1, if_pos h2]
  · simp [decodeCell, h1, h2]

/-- Witness for C1, at the spec's own example (gain 0.5, offset −32,
nodata 255, undetect 0): raw 255 is NoData, raw 0 is Undetect, raw 140 is
Measured 38. -/
theorem C1_decode_priority_witness :
    decodeCell 255 (1/2) (-32) 255 0 = (noDataStr, 0) ∧
    decodeCell 0 (1/2) (-32) 255 0 = (undetectStr, 0) ∧
    decodeCell 140 (1/2) (-32) 255 0 = (fmtDbz 38, 38) := by
  refine ⟨(C1_decode_priority 255 (1/2) (-32) 255 0).1 rfl,
    (C1_decode_priority 0 (1/2) (-32) 255 0).2.1 (by norm_num) rfl, ?_⟩
  have h := (C1_decode_priority 140 (1/2) (-32) 255 0).2.2
    (by norm_num) (by norm_num)
  rw [h]
  norm_num

/-- C2: the coordinate resolver computes
column = round((targetX − originX)/xScale) and
row = round((originY − targetY)/yScale), with targetX/Y and originX/Y the
planar transforms of the target point and the upper-left corner under the
same transform; the rounding is to a nearest integer (ties to even), and
the result is a signed integer pair (out-of-range indices are values, not
errors). -/
theorem C2_resolve_formula (T : ℚ → ℚ → ℚ × ℚ)
    (ul_lon ul_lat x_scale y_scale lat lon : ℚ) :
    resolvePixel T ul_lon ul_lat x_scale y_scale lat lon =
      (pyround (((T ul_lon ul_lat).2 - (T lon lat).2) / y_scale),
       pyround (((T lon lat).1 - (T ul_lon ul_lat).1) / x_scale)) ∧
    ∀ q : ℚ, |q - (pyround q : ℚ)| ≤ 1/2 :=
  ⟨rfl, pyround_nearest⟩

/-- C3 counterexample: with threshold 0, a file whose cell matches the
nodata sentinel produces a NoData reading (numeric field 0.0) that the
pipeline emits in the report, so a non-Measured reading appears: the
filter tests only the numeric field, not the category. -/
theorem C3_counterexample :
    batchWithThreshold T0 [("a.h5", cexNd)] 0 0 0 =
      some [⟨100, noDataStr, 0, "a.h5"⟩] ∧
    ¬ (⟨100, noDataStr, 0, "a.h5"⟩ : Reading).measured := by
  constructor
  · have hext := extractAll_single cexNd ⟨100, noDataStr, 0, "a.h5"⟩ 0 0
      (cexNd_get 0 0)
    simp [batchWithThreshold, hext, reportWithThreshold, sortByTime,
      List.mergeSort_singleton]
  · exact fun h => h.2.1 rfl

/-- C3 amended: for every strictly positive threshold (in particular the
source's fixed threshold 40), the emitted report contains exactly the
Measured readings with decoded value ≥ threshold, each as often as
extracted: every report entry is Measured with value ≥ threshold, and
every Measured reading with value ≥ threshold appears exactly as many
times as in the extraction.  (Non-Measured readings carry numeric value
0 < threshold, so the value-only filter excludes them.) -/
theorem C3_amended_report_exact (T : ℚ → ℚ → ℚ × ℚ)
    (files : List (String × H5File)) (lat lon t : ℚ) (ht : 0 < t)
    (l rs : List Reading)
    (hl : extractAll T files lat lon = some l)
    (hrs : batchWithThreshold T files lat lon t = some rs) :
    (∀ r ∈ rs, r.measured ∧ t ≤ r.real_dbz) ∧
    (∀ r : Reading, r.measured → t ≤ r.real_dbz →
      rs.count r = l.count r) := by
  rw [batchWithThreshold, hl, Option.map_some'] at hrs
  obtain rfl : reportWithThreshold t l = rs := Option.some_inj.mp hrs
  constructor
  · intro r hrmem
    have hfil := List.mem_filter.mp hrmem
    have hmem_l : r ∈ l := (sortByTime_perm l).mem_iff.mp hfil.1
    have hle : t ≤ r.real_dbz := by simpa using hfil.2
    obtain ⟨nf, _, hget⟩ := mapM_option_mem_inv _ _ _ hl r hmem_l
    rcases get_some_measured_or_zero hget with hm | hz
    · exact ⟨hm, hle⟩
    · rw [hz] at hle
      exact absurd (lt_of_lt_of_le ht hle) (lt_irrefl 0)
  · intro r _ hge
    have h1 : (reportWithThreshold t l).count r = (sortByTime l).count r := by
      rw [reportWithThreshold]
      exact List.count_filter (by simpa using hge)
    rw [h1, (sortByTime_perm l).count_eq r]

/-- Witness for C3 (amended): one file decoding to Measured 40 dBZ at
threshold 40 makes up the whole report. -/
theorem C3_amended_witness :
    (⟨100, fmtDbz 40, 40, "a.h5"⟩ : Reading).measured ∧
    (40:ℚ) ≤ (⟨100, fmtDbz 40, 40, "a.h5"⟩ : Reading).real_dbz ∧
    List.count (⟨100, fmtDbz 40, 40, "a.h5"⟩ : Reading)
        [(⟨100, fmtDbz 40, 40, "a.h5"⟩ : Reading)] =
      List.count (⟨100, fmtDbz 40, 40, "a.h5"⟩ : Reading)
        [(⟨100, fmtDbz 40, 40, "a.h5"⟩ : Reading)] := by
  have hext := extractAll_single mf ⟨100, fmtDbz 40, 40, "a.h5"⟩ 0 0
    (mf_get 0 0)
  have hrep : batchWithThreshold T0 [("a.h5", mf)] 0 0 40 =
      some [(⟨100, fmtDbz 40, 40, "a.h5"⟩ : Reading)] := by
    simp [batchWithThreshold, hext, reportWithThreshold, sortByTime,
      List.mergeSort_singleton]
  have h := C3_amended_report_exact T0 [("a.h5", mf)] 0 0 40 (by norm_num)
    _ _ hext hrep
  have hm := h.1 ⟨100, fmtDbz 40, 40, "a.h5"⟩ (List.mem_singleton.mpr rfl)
  exact ⟨hm.1, hm.2, h.2 ⟨100, fmtDbz 40, 40, "a.h5"⟩ hm.1 hm.2⟩

/-- C4: when the resolved pixel index is out of the grid's bounds, the
extractor returns the "Not in data" reading with placeholder value 0
(no error), and such a reading can never be in the threshold-40 measured
report. -/
theorem C4_out_of_bounds (T : ℚ → ℚ → ℚ × ℚ) (f : H5File) (name : String)
    (lat lon : ℚ) (e : ℤ) (ulon ulat xs ys : ℚ) (d : List (List ℚ))
    (hc : f.complete)
    (he : f.endepochs = some e) (hul : f.UL_lon = some ulon)
    (hua : f.UL_lat = some ulat) (hxs : f.xscale = some xs)
    (hys : f.yscale = some ys) (hd : f.data = some d)
    (hob : ¬ (0 ≤ (resolvePixel T ulon ulat xs ys lat lon).1 ∧
        (resolvePixel T ulon ulat xs ys lat lon).1 < (d.length : ℤ) ∧
        0 ≤ (resolvePixel T ulon ulat xs ys lat lon).2 ∧
        (resolvePixel T ulon ulat xs ys lat lon).2 <
          ((d.headD []).length : ℤ))) :
    get_radar_value_at_coord T f name lat lon =
      some ⟨e, notInDataStr, 0, name⟩ ∧
    ∀ rs : List Reading,
      (⟨e, notInDataStr, 0, name⟩ : Reading) ∉ reportWithThreshold 40 rs := by
  obtain ⟨ed, et, g, o, nd, ud, ee, pd, ulon0, ulat0, xs0, ys0, d0⟩ := f
  obtain ⟨h1, h2, h3, h4, h5, h6, h7, h8, h9, h10, h11, h12, h13⟩ := hc
  rcases ed with _ | ds
  · simp at h1
  rcases et with _ | ts
  · simp at h2
  rcases g with _ | g
  · simp at h3
  rcases o with _ | o
  · simp at h4
  rcases nd with _ | nd
  · simp at h5
  rcases ud with _ | ud
  · simp at h6
  rcases ee with _ | ee
  · simp at h7
  rcases pd with _ | pd
  · simp at h8
  rcases ulon0 with _ | ulon0
  · simp at h9
  rcases ulat0 with _ | ulat0
  · simp at h10
  rcases xs0 with _ | xs0
  · simp at h11
  rcases ys0 with _ | ys0
  · simp at h12
  rcases d0 with _ | d0
  · simp at h13
  obtain rfl : ee = e := Option.some_inj.mp he
  obtain rfl : ulon0 = ulon := Option.some_inj.mp hul
  obtain rfl : ulat0 = ulat := Option.some_inj.mp hua
  obtain rfl : xs0 = xs := Option.some_inj.mp hxs
  obtain rfl : ys0 = ys := Option.some_inj.mp hys
  obtain rfl : d0 = d := Option.some_inj.mp hd
  refine ⟨?_, ?_⟩
  · rw [get_mk_eq]
    exact extractCore_out hob
  · intro rs
    exact low_value_not_in_report (by norm_num) rs

/-- Witness for C4: a file with an empty data array — pixel (0,0) is out
of its bounds — yields the "Not in data" reading, excluded from the
measured report. -/
theorem C4_witness :
    get_radar_value_at_coord T0 wfOut "a.h5" 0 0 =
      some ⟨100, notInDataStr, 0, "a.h5"⟩ ∧
    (⟨100, notInDataStr, 0, "a.h5"⟩ : Reading) ∉
      reportWithThreshold 40 [(⟨100, notInDataStr, 0, "a.h5"⟩ : Reading)] := by
  have h := C4_out_of_bounds T0 wfOut "a.h5" 0 0 100 25 43 500 500 []
    (by simp [H5File.complete, wfOut]) rfl rfl rfl rfl rfl rfl
    (by rw [@resolvePixel_eq_zero T0 25 43 500 500 0 0 rfl]; norm_num)
  exact ⟨h.1, h.2 [(⟨100, notInDataStr, 0, "a.h5"⟩ : Reading)]⟩

/-- C5: the timestamp of the returned reading equals the file's
`endepochs` attribute, and the textual `enddate`/`endtime` attributes are
never used for it: a file differing only in those two attributes yields
the identical reading. -/
theorem C5_timestamp_endepochs (T : ℚ → ℚ → ℚ × ℚ) (f f' : H5File)
    (name : String) (lat lon : ℚ) (e : ℤ) (r r' : Reading)
    (he : f.endepochs = some e)
    (hr : get_radar_value_at_coord T f name lat lon = some r)
    (hft : f' = { f with enddate := f'.enddate, endtime := f'.endtime })
    (hr' : get_radar_value_at_coord T f' name lat lon = some r') :
    r.end_epoch = e ∧ r' = r := by
  obtain ⟨ds, ts, g, o, nd, ud, ee, pd, ulon, ulat, xs, ys, d, rfl⟩ :=
    get_eq_some_inv hr
  rw [get_mk_eq] at hr
  obtain ⟨ds', ts', g', o', nd', ud', ee', pd', ulon', ulat', xs', ys', d',
    hf'⟩ := get_eq_some_inv hr'
  subst hf'
  simp only [H5File.mk.injEq, Option.some_inj] at hft
  obtain ⟨-, -, rfl, rfl, rfl, rfl, rfl, rfl, rfl, rfl, rfl, rfl, rfl⟩ := hft
  rw [get_mk_eq] at hr'
  refine ⟨?_, ?_⟩
  · obtain ⟨h1, -⟩ := extractCore_some_epoch_name hr
    rw [h1]
    exact Option.some_inj.mp he
  · exact (Option.some_inj.mp (hr.symm.trans hr')).symm

/-- Witness for C5: two concrete files agreeing except in
`enddate`/`endtime` both yield the reading with timestamp 100, the value
of `endepochs`. -/
theorem C5_witness :
    (⟨100, fmtDbz 5, 5, "a.h5"⟩ : Reading).end_epoch = 100 ∧
    (⟨100, fmtDbz 5, 5, "a.h5"⟩ : Reading) = ⟨100, fmtDbz 5, 5, "a.h5"⟩ :=
  C5_timestamp_endepochs T0 wf wf2 "a.h5" 0 0 100
    ⟨100, fmtDbz 5, 5, "a.h5"⟩ ⟨100, fmtDbz 5, 5, "a.h5"⟩
    rfl (wf_get 0 0) rfl (wf2_get 0 0)

/-- C6 counterexample: a file carrying every attribute of the spec's
required list (projdef, UL_lon, UL_lat, xscale, yscale, gain, offset,
nodata, undetect, endepochs, and a rectangular 2-D dataset) still fails
extraction, because the source also reads `enddate` (and `endtime`),
which the spec's required-attribute list omits. -/
theorem C6_counterexample :
    cexNoEnddate.specRequired ∧
    rectangular (cexNoEnddate.data.getD []) ∧
    get_radar_value_at_coord T0 cexNoEnddate "a.h5" 0 0 = none := by
  refine ⟨?_, ?_, rfl⟩
  · simp [H5File.specRequired, cexNoEnddate]
  · intro row hrow
    simp [cexNoEnddate] at hrow
    simp [cexNoEnddate, hrow]

/-- C6 amended: with `enddate` and `endtime` added to the required
attributes, extraction of a file with a rectangular data array succeeds
iff every attribute the source reads (including the data array) is
present; any missing one makes it fail. -/
theorem C6_amended_required_iff (T : ℚ → ℚ → ℚ × ℚ) (f : H5File)
    (name : String) (lat lon : ℚ)
    (hrect : rectangular (f.data.getD [])) :
    (get_radar_value_at_coord T f name lat lon).isSome ↔ f.complete := by
  constructor
  · intro h
    obtain ⟨r, hr⟩ := Option.isSome_iff_exists.mp h
    obtain ⟨ds, ts, g, o, nd, ud, e, pd, ulon, ulat, xs, ys, d, rfl⟩ :=
      get_eq_some_inv hr
    simp [H5File.complete]
  · intro hc
    exact get_isSome_of_complete hc hrect

/-- Witness for C6 (amended), at a complete concrete file. -/
theorem C6_amended_witness :
    rectangular (wf.data.getD []) ∧
    ((get_radar_value_at_coord T0 wf "a.h5" 0 0).isSome ↔ wf.complete) := by
  have hrect : rectangular (wf.data.getD []) := by
    intro row hrow
    simp [wf] at hrow
    simp [wf, hrow]
  exact ⟨hrect, C6_amended_required_iff T0 wf "a.h5" 0 0 hrect⟩

/-- C7: for every set of input files, in any enumeration order, and every
threshold, the emitted report is non-decreasing in timestamp. -/
theorem C7_report_sorted (T : ℚ → ℚ → ℚ × ℚ)
    (files : List (String × H5File)) (lat lon threshold : ℚ)
    (rs : List Reading)
    (h : batchWithThreshold T files lat lon threshold = some rs) :
    rs.Pairwise fun a b => a.end_epoch ≤ b.end_epoch := by
  rw [batchWithThreshold] at h
  rcases Option.map_eq_some'.mp h with ⟨l, -, rfl⟩
  rw [reportWithThreshold]
  exact List.Pairwise.sublist (List.filter_sublist _) (sortByTime_sorted l)

/-- Witness for C7: the pipeline over one concrete file (its reading,
5 dBZ, falls below threshold 40) yields the empty, trivially sorted,
report. -/
theorem C7_witness :
    ([] : List Reading).Pairwise
      fun a b => a.end_epoch ≤ b.end_epoch := by
  have hext := extractAll_single wf ⟨100, fmtDbz 5, 5, "a.h5"⟩ 0 0
    (wf_get 0 0)
  refine C7_report_sorted T0 [("a.h5", wf)] 0 0 40 [] ?_
  rw [batchWithThreshold, hext, Option.map_some']
  rw [reportWithThreshold, sortByTime, List.mergeSort_singleton]
  norm_num

/-- C8: a target point equal to the file's stored upper-left corner
resolves to pixel (0,0): the same transform is applied to both points, so
both quotients are exactly 0 before rounding. -/
theorem C8_origin_roundtrip (T : ℚ → ℚ → ℚ × ℚ)
    (ul_lon ul_lat x_scale y_scale : ℚ) :
    resolvePixel T ul_lon ul_lat x_scale y_scale ul_lat ul_lon = (0, 0) :=
  resolvePixel_eq_zero rfl

/-- C9: whenever the returned reading's category is not Measured (out of
grid, nodata or undetect), its numeric value field is exactly 0, the
placeholder. -/
theorem C9_placeholder_zero (T : ℚ → ℚ → ℚ × ℚ) (f : H5File)
    (name : String) (lat lon : ℚ) (r : Reading)
    (hr : get_radar_value_at_coord T f name lat lon = some r)
    (hcat : r.realvalue = notInDataStr ∨ r.realvalue = noDataStr ∨
      r.realvalue = undetectStr) :
    r.real_dbz = 0 := by
  rcases get_some_measured_or_zero hr with hm | hz
  · rcases hcat with h | h | h
    · exact absurd h hm.1
    · exact absurd h hm.2.1
    · exact absurd h hm.2.2
  · exact hz

/-- Witness for C9: the nodata-cell file produces the NoData reading,
whose numeric field is 0. -/
theorem C9_witness : (⟨100, noDataStr, 0, "a.h5"⟩ : Reading).real_dbz = 0 :=
  C9_placeholder_zero T0 cexNd "a.h5" 0 0 ⟨100, noDataStr, 0, "a.h5"⟩
    (cexNd_get 0 0) (Or.inr (Or.inl rfl))

/-- C10: for a well-formed file (every attribute present, rectangular 2-D
array) the extractor is total for any target point: the array is indexed
only inside the bounds guard, so a reading is always returned. -/
theorem C10_extractor_total (T : ℚ → ℚ → ℚ × ℚ) (f : H5File)
    (name : String) (lat lon : ℚ) (hc : f.complete)
    (hrect : rectangular (f.data.getD [])) :
    ∃ r : Reading, get_radar_value_at_coord T f name lat lon = some r :=
  Option.isSome_iff_exists.mp (get_isSome_of_complete hc hrect)

/-- Witness for C10, at a complete concrete file and target (0,0). -/
theorem C10_witness :
    (get_radar_value_at_coord T0 wf "a.h5" 0 0).isSome := by
  obtain ⟨r, hr⟩ := C10_extractor_total T0 wf "a.h5" 0 0
    (by simp [H5File.complete, wf])
    (by
      intro row hrow
      simp [wf] at hrow
      simp [wf, hrow])
  rw [hr]
  rfl

end CheckCoordinates
